import Mathlib

/-!
Formal model of the `mfa-backup-dynamodb` repository: the daily-backup lambda
(`src/lambda/daily_backup/lambda_function.py`) and the disaster-recovery lambda
(`src/lambda/disaster_recovery/lambda_function.py`).

Remote collaborators (DynamoDB, S3) are modelled as explicit inputs: a polling
function for `describe_export`, a key/object list for the S3 bucket, and a
response function for `batch_write_item`.  Time is modelled by counting the
`time.sleep` delays the code performs.  Python dictionaries with possibly
missing keys become structures with `Option` fields.
-/

namespace Backup

/-- One table's export-result record, as assembled by `start_table_export` /
`_start_table_exports` and later merged with monitoring results by
`_update_export_results_with_completion`.  `Option` fields model dictionary
keys that may be absent; `timeout` models the `'timeout'` key added by
`_handle_timed_out_exports` (absent, i.e. `false`, otherwise). -/
structure ExportRec where
  table_name : String := ""
  export_arn : Option String := none
  status : String := ""
  item_count : Option Nat := none
  billing_size_bytes : Option Nat := none
  timeout : Bool := false
  error : Option String := none
deriving Repr, DecidableEq

/-- A successful `describe_export` description: the fields `check_export_status`
reads from `response['ExportDescription']`. -/
structure OkDesc where
  status : String
  item_count : Nat
  billing_size_bytes : Nat
deriving Repr, DecidableEq

/-- The record built by `check_export_status` for one ARN (lines 119-151).
On a remote error the status is `UNKNOWN` and the numeric keys are absent. -/
structure StatusInfo where
  export_arn : String
  status : String
  item_count : Option Nat
  billing_size_bytes : Option Nat
  timeout : Bool
  error : Option String
deriving Repr, DecidableEq

/-- `check_export_status(export_arn)`: polls `describe_export` (modelled by
`poll`, a function of the current elapsed time and the ARN) and either records
the description or falls back to status `UNKNOWN` with an error message. -/
def check_export_status (poll : Nat → String → Except String OkDesc)
    (t : Nat) (arn : String) : StatusInfo :=
  match poll t arn with
  | .ok d => ⟨arn, d.status, some d.item_count, some d.billing_size_bytes, false, none⟩
  | .error e => ⟨arn, "UNKNOWN", none, none, false, some e⟩

/-- The terminal statuses tested by `_process_export_arn` (line 158). -/
def isTerminalStatus (s : String) : Bool :=
  s == "COMPLETED" || s == "FAILED"

/-- `_process_export_arn`: one poll of one ARN, returning the status record and
the completion flag. -/
def _process_export_arn (poll : Nat → String → Except String OkDesc)
    (t : Nat) (arn : String) : StatusInfo × Bool :=
  let si := check_export_status poll t arn
  (si, isTerminalStatus si.status)

/-- `_handle_timed_out_exports`: polls each remaining ARN once more and marks
the result with `timeout = true` (lines 169-177). -/
def _handle_timed_out_exports (poll : Nat → String → Except String OkDesc)
    (t : Nat) (arns : List String) : List StatusInfo :=
  arns.map (fun arn => { check_export_status poll t arn with timeout := true })

/-- The monitoring loop of `wait_for_exports_completion` (lines 187-206).
`elapsed` counts the seconds slept so far (each poll round that leaves work
sleeps 30 seconds); `fuel` is a structural bound on the number of rounds, set
high enough by `wait_for_exports_completion` that the fuel-exhaustion branch is
never reached.  Per the source: while ARNs remain and `elapsed < maxWait`,
every remaining ARN is polled, terminal ones move to the accumulator, and if
any remain the loop sleeps 30s; ARNs still present after the loop are given to
`_handle_timed_out_exports`. -/
def waitLoop (poll : Nat → String → Except String OkDesc) (maxWait : Nat) :
    Nat → Nat → List String → List StatusInfo → Nat × List StatusInfo
  | 0, elapsed, arns, acc =>
      if arns.isEmpty then (elapsed, acc)
      else (elapsed, acc ++ _handle_timed_out_exports poll elapsed arns)
  | fuel + 1, elapsed, arns, acc =>
      if arns.isEmpty then (elapsed, acc)
      else if maxWait ≤ elapsed then
        (elapsed, acc ++ _handle_timed_out_exports poll elapsed arns)
      else
        let step := arns.map (fun a => _process_export_arn poll elapsed a)
        let completedNow := (step.filter (fun p => p.2)).map (fun p => p.1)
        let remaining := (step.filter (fun p => !p.2)).map (fun p => p.1.export_arn)
        if remaining.isEmpty then (elapsed, acc ++ completedNow)
        else waitLoop poll maxWait fuel (elapsed + 30) remaining (acc ++ completedNow)

/-- `wait_for_exports_completion(export_arns, max_wait_time)` (lines 180-208).
Returns the total slept time together with the list of status records (the
source returns only the list; the time component makes the sleeping explicit).
The fuel `maxWait / 30 + 2` strictly exceeds the number of poll rounds the
source's `while` loop can perform. -/
def wait_for_exports_completion (poll : Nat → String → Except String OkDesc)
    (arns : List String) (maxWait : Nat) : Nat × List StatusInfo :=
  waitLoop poll maxWait (maxWait / 30 + 2) 0 arns []

/-- Python truthiness of `e.get('item_count', 0)`: absent or zero contribute
nothing to the manifest sums, so the sum equals the sum of `getD 0`. -/
def itemVal (e : ExportRec) : Nat := e.item_count.getD 0

/-- Value used for the `billing_size_bytes` sums, as for `itemVal`. -/
def sizeVal (e : ExportRec) : Nat := e.billing_size_bytes.getD 0

/-- The aggregate fields of the manifest built by `create_export_manifest`
(lines 218-233).  The S3 upload of the manifest is an external write and not
modelled. -/
structure Manifest where
  total_exports : Nat
  successful_exports : Nat
  failed_exports : Nat
  total_items_exported : Nat
  total_size_bytes : Nat
deriving Repr, DecidableEq

/-- `create_export_manifest`: `successful` counts status `COMPLETED`, `failed`
counts statuses `FAILED` and `UNKNOWN`, and the item/size totals are summed
over every entry whose count is truthy, regardless of its status. -/
def create_export_manifest (exports : List ExportRec) : Manifest where
  total_exports := exports.length
  successful_exports := (exports.filter (fun e => e.status == "COMPLETED")).length
  failed_exports := (exports.filter (fun e => e.status == "FAILED" || e.status == "UNKNOWN")).length
  total_items_exported := (exports.map itemVal).sum
  total_size_bytes := (exports.map sizeVal).sum

/-- The sum the specification describes: items summed only over entries with
status `COMPLETED`.  Written from the spec's words, for comparison with
`create_export_manifest`. -/
def spec_completed_items_sum (exports : List ExportRec) : Nat :=
  ((exports.filter (fun e => e.status == "COMPLETED")).map itemVal).sum

/-- The collaborators of `_start_table_exports`: `describe_table` success and
the outcome of `export_table_to_point_in_time` (an ARN, or an error). -/
structure StartEnv where
  tableExists : String → Bool
  startExport : String → Except String String

/-- `start_table_export` (lines 75-116): on success an `IN_PROGRESS` record
carrying the export ARN, on any failure a `FAILED` record with no ARN. -/
def start_table_export (env : StartEnv) (t : String) : ExportRec :=
  match env.startExport t with
  | .ok arn => { table_name := t, export_arn := some arn, status := "IN_PROGRESS" }
  | .error e => { table_name := t, status := "FAILED", error := some e }

/-- `_start_table_exports` (lines 443-480): for each table, a missing table
(`describe_table` raising `ResourceNotFoundException`) yields a `FAILED` record
and the batch continues; otherwise the export is started.  ARNs of started
exports are collected for monitoring. -/
def _start_table_exports (env : StartEnv) (tables : List String) :
    List ExportRec × List String :=
  let results := tables.map (fun t =>
    if env.tableExists t then start_table_export env t
    else { table_name := t, status := "FAILED", error := some ("Table " ++ t ++ " not found") })
  (results, results.filterMap (fun r => r.export_arn))

/-- Merging one completed `StatusInfo` into a start record, modelling Python's
`dict.update`: keys present in the completion overwrite, absent keys
(`none`) leave the original value. -/
def merge_completion (r : ExportRec) (c : StatusInfo) : ExportRec :=
  { r with
    export_arn := some c.export_arn
    status := c.status
    item_count := c.item_count <|> r.item_count
    billing_size_bytes := c.billing_size_bytes <|> r.billing_size_bytes
    timeout := r.timeout || c.timeout
    error := c.error <|> r.error }

/-- `_update_export_results_with_completion` (lines 483-492): each record that
has an ARN is updated with the first completion record carrying the same ARN. -/
def _update_export_results_with_completion (results : List ExportRec)
    (completed : List StatusInfo) : List ExportRec :=
  results.map (fun r =>
    match r.export_arn with
    | none => r
    | some arn =>
      match completed.find? (fun c => c.export_arn == arn) with
      | none => r
      | some c => merge_completion r c)

/-- `_calculate_export_summary` (lines 495-503): successful/failed counts and
the item and byte totals (the source divides the bytes by 1024² for display as
a float; the status code depends only on the counts). -/
def _calculate_export_summary (results : List ExportRec) : Nat × Nat × Nat × Nat :=
  ((results.filter (fun e => e.status == "COMPLETED")).length,
   (results.filter (fun e => e.status == "FAILED" || e.status == "UNKNOWN")).length,
   (results.map itemVal).sum,
   (results.map sizeVal).sum)

/-- `_determine_status_code` (lines 537-544). -/
def _determine_status_code (failed succ : Nat) (backblazeStatus : String) : Nat :=
  if failed > 0 && succ == 0 then 500
  else if failed > 0 || backblazeStatus == "FAILED" then 207
  else 200

/-- The export phases of `lambda_handler` (lines 632-658): start all exports,
monitor the collected ARNs, merge the completions, build the manifest
aggregates and compute the run's status code.  The Backblaze copy is an
external collaborator summarised by its status string. -/
def run_export_batch (env : StartEnv) (poll : Nat → String → Except String OkDesc)
    (tables : List String) (backblazeStatus : String) : Manifest × Nat :=
  let sr := _start_table_exports env tables
  let updated :=
    if sr.2.isEmpty then sr.1
    else _update_export_results_with_completion sr.1
      (wait_for_exports_completion poll sr.2 840).2
  let m := create_export_manifest updated
  let s := _calculate_export_summary updated
  (m, _determine_status_code s.2.1 s.1 backblazeStatus)

end Backup

namespace Recovery

/-- JSON values, as produced by `json.loads` on one line of an export data
file.  Objects are association lists with distinct keys (the invariant of a
Python dict produced by `json.loads`). -/
inductive Jval where
  | str (s : String)
  | num (n : Int)
  | bool (b : Bool)
  | null
  | obj (fields : List (String × Jval))
  | arr (elems : List Jval)

/-- Dictionary key lookup, `item_data['Item']`. -/
def lookupField (fields : List (String × Jval)) (k : String) : Option Jval :=
  (fields.find? (fun p => p.1 == k)).map (fun p => p.2)

/-- Substring test for Python's `'Item' in s` on a string. -/
def hasItemSub : List Char → Bool
  | [] => false
  | c :: rest => ("Item".data.isPrefixOf (c :: rest)) || hasItemSub rest

/-- One non-blank, JSON-decodable line of a data file, as handled by the body
of the loop in `parse_dynamodb_json_file` (lines 317-330).  Python semantics of
`'Item' in item_data` followed by `item_data['Item']`:
a dict contributes its `Item` value when the key is present, otherwise the
whole dict; a list or string not containing `'Item'` is silently skipped; a
bare number, boolean or `null` makes `'Item' in item_data` raise `TypeError`,
and a list containing the string `'Item'` or a string containing `'Item'` as a
substring makes the indexing raise `TypeError` — either `TypeError` escapes the
`json.JSONDecodeError` handler and aborts the whole file (`.error`). -/
def lineStep : Jval → Except Unit (Option Jval)
  | .obj fields =>
      match lookupField fields "Item" with
      | some v => .ok (some v)
      | none => .ok (some (.obj fields))
  | .arr elems =>
      if elems.any (fun j => match j with | .str s => s == "Item" | _ => false) then .error ()
      else .ok none
  | .str s => if hasItemSub s.data then .error () else .ok none
  | .num _ => .error ()
  | .bool _ => .error ()
  | .null => .error ()

/-- One line of a data file: blank (skipped), not JSON-decodable (skipped and
counted by the `json.JSONDecodeError` handler), or JSON-decodable to `j`. -/
inductive Line where
  | blank
  | malformed
  | ok (j : Jval)

/-- The line loop of `parse_dynamodb_json_file`, accumulating the `items` list
and the logged `error_count`. -/
def parseLinesGo : List Line → List Jval → Nat → Except Unit (List Jval × Nat)
  | [], items, errs => .ok (items, errs)
  | .blank :: rest, items, errs => parseLinesGo rest items errs
  | .malformed :: rest, items, errs => parseLinesGo rest items (errs + 1)
  | .ok j :: rest, items, errs =>
      match lineStep j with
      | .error _ => .error ()
      | .ok none => parseLinesGo rest items errs
      | .ok (some it) => parseLinesGo rest (items ++ [it]) errs

/-- `parse_dynamodb_json_file` (lines 300-340) at the level of already-split
lines: returns the parsed items and the logged error count; a `TypeError`
escaping the loop is caught by the function-level handler, which returns `[]`
(and never reaches the error-count log). -/
def parse_dynamodb_json_file (lines : List Line) : List Jval × Nat :=
  match parseLinesGo lines [] 0 with
  | .ok r => r
  | .error _ => ([], 0)

/-- Character-list lexicographic order, Python's string `<` (by code point). -/
def strLtB : List Char → List Char → Bool
  | [], [] => false
  | [], _ :: _ => true
  | _ :: _, [] => false
  | a :: as, b :: bs => decide (a.toNat < b.toNat) || (a == b && strLtB as bs)

/-- Descending insertion, for `sort(reverse=True)`. -/
def insertDesc (x : String) : List String → List String
  | [] => [x]
  | y :: ys => if strLtB x.data y.data then y :: insertDesc x ys else x :: y :: ys

/-- `sorted(l, reverse=True)` on strings. -/
def sortDesc : List String → List String
  | [] => []
  | x :: xs => insertDesc x (sortDesc xs)

/-- `p` is a prefix of `k` (for S3 `Prefix=` filtering). -/
def strPreOf (p k : String) : Bool := p.data.isPrefixOf k.data

/-- `k.endswith(suf)`. -/
def endsWithB (k suf : String) : Bool := suf.data.isSuffixOf k.data

/-- Python `s.rstrip('/')`. -/
def rstripSlash (s : String) : String :=
  String.mk ((s.data.reverse.dropWhile (fun c => c == '/')).reverse)

/-- Helper for `split('/')`: `acc` holds the current segment reversed. -/
def splitSlashAux : List Char → List Char → List (List Char)
  | [], acc => [acc.reverse]
  | c :: rest, acc =>
      if c == '/' then acc.reverse :: splitSlashAux rest []
      else splitSlashAux rest (c :: acc)

/-- Python `s.split('/')`. -/
def splitSlash (s : String) : List String :=
  (splitSlashAux s.data []).map String.mk

/-- One manifest entry, the fields `validate_export_info` and the restore read.
Empty strings model absent/empty dictionary values (Python falsiness). -/
structure ExportInfo where
  table_name : String := ""
  s3Pre : String := ""
  status : String := ""
  item_count : Nat := 0
  export_arn : String := ""
deriving Repr, DecidableEq

/-- A parsed backup manifest: the handler only requires the `exports` list. -/
structure ManifestDoc where
  exports : List ExportInfo
deriving Repr, DecidableEq

/-- One object of the modelled S3 bucket.  `size` is the `ContentLength` /
`Size` metadata; the content is only interpreted for the backup manifest and
for data files. -/
inductive ObjContent where
  | doc (m : Option ManifestDoc)
  | dataFile (lines : List Line)
  | blob

structure S3Obj where
  key : String
  size : Nat
  content : ObjContent

/-- `list_objects_v2(Prefix=pre)` key listing (the model lists exhaustively;
the claims do not depend on the 1000-key page size). -/
def listKeys (s3 : List S3Obj) (pre : String) : List String :=
  (s3.map (fun o => o.key)).filter (fun k => strPreOf pre k)

/-- `list_objects_v2(Prefix=pre, Delimiter='/')` `CommonPrefixes`: for each key
under `pre` whose remainder contains a `/`, the prefix extended by the first
segment and the delimiter, each reported once. -/
def commonPre (s3 : List S3Obj) (pre : String) : List String :=
  ((s3.map (fun o => o.key)).filterMap (fun k =>
    if strPreOf pre k then
      match splitSlashAux (k.data.drop pre.data.length) [] with
      | seg :: _ :: _ => some (String.mk (pre.data ++ seg ++ ['/']))
      | _ => none
    else none)).eraseDups

/-- The regex `^\d{4}-\d{2}-\d{2}$` of `get_available_backups`. -/
def isDateFmt (s : String) : Bool :=
  match s.data with
  | [a, b, c, d, e, f, g, h, i, j] =>
      a.isDigit && b.isDigit && c.isDigit && d.isDigit && e == '-' &&
      f.isDigit && g.isDigit && h == '-' && i.isDigit && j.isDigit
  | _ => false

/-- `get_available_backups` (lines 68-115): dates parsed from the
`CommonPrefixes` under `exports/`, sorted newest first. -/
def get_available_backups (s3 : List S3Obj) : List String :=
  sortDesc ((commonPre s3 "exports/").filterMap (fun pfx =>
    let parts := splitSlash (rstripSlash pfx)
    match parts.getLast? with
    | some d => if decide (2 ≤ parts.length) && isDateFmt d then some d else none
    | none => none))

/-- `get_backup_manifest` (lines 118-154): fetch and parse
`exports/<date>/manifest.json`; a missing key, invalid JSON or invalid
structure all yield `none`. -/
def get_backup_manifest (s3 : List S3Obj) (date : String) : Option ManifestDoc :=
  match s3.find? (fun o => o.key == "exports/" ++ date ++ "/manifest.json") with
  | none => none
  | some o =>
      match o.content with
      | .doc m => m
      | _ => none

/-- `validate_export_info` (lines 157-176): the three required fields are
present and non-empty and the status is `COMPLETED`. -/
def validate_export_info (e : ExportInfo) : Bool :=
  !(e.table_name == "") && !(e.s3Pre == "") && !(e.status == "") && e.status == "COMPLETED"

/-- Recognized data-file suffixes (line 227 and the analogous filters). -/
def isDataKey (k : String) : Bool :=
  endsWithB k ".json.gz" || endsWithB k ".json"

/-- A suffix-filtered listing under a prefix. -/
def filteredKeys (s3 : List S3Obj) (pre : String) : List String :=
  (listKeys s3 pre).filter isDataKey

/-- Strategy 1 of `get_export_data_files` (lines 192-235): the standard export
layout.  List the `CommonPrefixes` under `<p>/AWSDynamoDB/`, take the
lexicographically greatest export directory (`sort(reverse=True)` then `[0]`),
and return the first non-empty suffix-filtered listing of `<dir>data/` and the
directory itself; empty if there is no export directory or neither spot has
data files. -/
def strat1 (s3 : List S3Obj) (p : String) : List String :=
  match sortDesc (commonPre s3 (p ++ "/AWSDynamoDB/")) with
  | [] => []
  | d :: _ =>
      let a := filteredKeys s3 (d ++ "data/")
      if a.isEmpty then filteredKeys s3 d else a

/-- Strategy 2 (lines 237-253): files directly under `<p>/`. -/
def strat2 (s3 : List S3Obj) (p : String) : List String :=
  filteredKeys s3 (p ++ "/")

/-- Strategy 3 (lines 255-273): exhaustive paginated recursive listing under
`<p>/`; in the model, where listings are not truncated, it lists the same keys
as strategy 2. -/
def strat3 (s3 : List S3Obj) (p : String) : List String :=
  filteredKeys s3 (p ++ "/")

/-- `get_export_data_files` (lines 179-297): validates the export entry, then
tries the three strategies in order on the rstripped prefix, returning the
first non-empty result and failing only when all three found nothing. -/
def get_export_data_files (s3 : List S3Obj) (e : ExportInfo) : Except String (List String) :=
  if !(validate_export_info e) then .error "invalid export info"
  else
    let p := rstripSlash e.s3Pre
    let f1 := strat1 s3 p
    if !f1.isEmpty then .ok f1
    else
      let f2 := strat2 s3 p
      if !f2.isEmpty then .ok f2
      else
        let f3 := strat3 s3 p
        if !f3.isEmpty then .ok f3
        else .error ("No data files found for export " ++ e.table_name)

end Recovery

namespace Recovery

/-- Chunking `items[i:i+25]` for `range(0, total, 25)` (line 506), by fuel on
the list length so that the definition computes by reduction. -/
def chunksAux {α : Type} (n : Nat) : Nat → List α → List (List α)
  | 0, _ => []
  | _, [] => []
  | fuel + 1, x :: xs => ((x :: xs).take n) :: chunksAux n fuel ((x :: xs).drop n)

/-- The list of chunks of size at most `n` (`n = 25` in the engine). -/
def chunksOf {α : Type} (n : Nat) (l : List α) : List (List α) :=
  chunksAux n l.length l

/-- Everything observable about one `write_batch` call (lines 449-500):
the returned `(batch_successful, batch_failed)`, the argument of each
`batch_write_item` call in order, the backoff sleeps performed, and the
`UnprocessedItems` list of the last response (`none` when the call ended by an
exception). -/
structure BatchTrace (α : Type) where
  successful : Nat
  failed : Nat
  submissions : List (List α)
  backoffs : List Nat
  finalUnprocessed : Option (List α)

/-- The retry loop of `write_batch` (lines 462-493).  `env attempt put` is the
remote `batch_write_item` response: `none` for a raised exception, `some u` for
a response whose `UnprocessedItems` for the table is `u`.  `batchLen` is
`len(batch_items)`; `remaining` is the number of attempts left out of
`max_retries = 3`.  On the final attempt, leftover unprocessed items count as
failed and an exception fails the whole chunk (`batch_failed = len(batch_items)`,
`batch_successful = 0`); earlier attempts sleep `min(2**attempt, 10)` and
resubmit the unprocessed subset (or the same requests after an exception). -/
def write_batch_go {α : Type} (env : Nat → List α → Option (List α)) (batchLen : Nat) :
    Nat → Nat → List α → BatchTrace α
  | 0, _attempt, _put => ⟨0, batchLen, [], [], none⟩
  | 1, attempt, put =>
      match env attempt put with
      | none => ⟨0, batchLen, [put], [], none⟩
      | some u => ⟨batchLen - u.length, u.length, [put], [], some u⟩
  | remaining + 2, attempt, put =>
      match env attempt put with
      | none =>
          let t := write_batch_go env batchLen (remaining + 1) (attempt + 1) put
          ⟨t.successful, t.failed, put :: t.submissions,
            Nat.min (2 ^ attempt) 10 :: t.backoffs, t.finalUnprocessed⟩
      | some u =>
          if u.isEmpty then ⟨batchLen, 0, [put], [], some u⟩
          else
            let t := write_batch_go env batchLen (remaining + 1) (attempt + 1) u
            ⟨t.successful, t.failed, put :: t.submissions,
              Nat.min (2 ^ attempt) 10 :: t.backoffs, t.finalUnprocessed⟩

/-- `write_batch(batch_items)` with `max_retries = 3`. -/
def write_batch {α : Type} (env : Nat → List α → Option (List α)) (batch : List α) :
    BatchTrace α :=
  write_batch_go env batch.length 3 0 batch

/-- The traces of all chunk writes of one `batch_write_items_to_table` call;
`env` takes the chunk index, the attempt number and the submitted requests. -/
def batchTraces {α : Type} (env : Nat → Nat → List α → Option (List α))
    (items : List α) : List (BatchTrace α) :=
  (chunksOf 25 items).enum.map (fun ic => write_batch (env ic.1) ic.2)

/-- `batch_write_items_to_table` (lines 438-533): chunk into 25s, write each
chunk through the retry loop, and sum the per-chunk outcomes into
`(items_written, failed_items)`.  `maxWorkers` bounds the thread pool; the
totals are sums over all chunk outcomes and do not depend on completion order,
so the model sums in chunk order. -/
def batch_write_items_to_table {α : Type} (env : Nat → Nat → List α → Option (List α))
    (items : List α) (maxWorkers : Nat) : Nat × Nat :=
  let _ := maxWorkers
  let ts := batchTraces env items
  ((ts.map (fun t => t.successful)).sum, (ts.map (fun t => t.failed)).sum)

/-- The resubmission discipline of the retry loop, as a relation on the
sequence of `batch_write_item` arguments starting at attempt `a`: after a
response with unprocessed items the next call submits exactly those items,
after an exception the next call submits the same requests again. -/
def subsChain {α : Type} (env : Nat → List α → Option (List α)) :
    Nat → List (List α) → Prop
  | _, [] => True
  | _, [_] => True
  | a, s₁ :: s₂ :: rest =>
      (s₂ = match env a s₁ with | some u => u | none => s₁) ∧ subsChain env (a + 1) (s₂ :: rest)

/-- A well-formed remote response never reports more unprocessed items than
were submitted. -/
def wfResp {α : Type} (env : Nat → List α → Option (List α)) : Prop :=
  ∀ a s u, env a s = some u → u.length ≤ s.length

/-- `wfResp` for every chunk index. -/
def wfRespC {α : Type} (env : Nat → Nat → List α → Option (List α)) : Prop :=
  ∀ c, wfResp (env c)

/-- `wfResp` for every file and chunk index. -/
def wfRespF (env : Nat → Nat → Nat → List Jval → Option (List Jval)) : Prop :=
  ∀ f, wfRespC (env f)

/-- The remote state mutations the restore path can perform: the scan-and-
delete of `clear_existing_table_data`, and each `batch_write_item` call issued
by `write_batch`.  The dry-run frame property asserts this list is empty. -/
inductive Eff where
  | clearData (table : String)
  | batchWrite (table : String) (submitted : List Jval)

/-- All `batch_write_item` submissions of one `batch_write_items_to_table`
call, as effects. -/
def writeEffects (t : String) (env : Nat → Nat → List Jval → Option (List Jval))
    (items : List Jval) : List Eff :=
  ((batchTraces env items).map (fun tr => tr.submissions.map (fun s => Eff.batchWrite t s))).flatten

/-- The lines of a data file object; a failed `get_object` or a non-data
object yields no lines (the source's parse returns `[]` for them). -/
def fileLines (s3 : List S3Obj) (k : String) : List Line :=
  match s3.find? (fun o => o.key == k) with
  | some o =>
      match o.content with
      | .dataFile ls => ls
      | _ => []
  | none => []

/-- The per-table result record of `restore_table_from_s3_export`
(lines 594-624), restricted to the fields the claims are about. -/
structure RestoreResult where
  table_name : String
  status : String
  items_processed : Nat
  items_written : Nat
  items_failed : Nat
  error : Option String

/-- `restore_table_from_s3_export` (lines 536-624): optionally clear the table
(a failure there fails the restore), locate the data files, and for each file
in order parse it and batch-write its items (files parsing to no items are
skipped), accumulating `items_processed`, `items_written` and `items_failed`;
the final status is `COMPLETED` when nothing failed, `PARTIAL_SUCCESS` when
something was written, else `FAILED`.  `wenv` gives the remote write response
by file index, chunk index and attempt; `clearOutcome` is the outcome of
`clear_existing_table_data` (`none` = failure). -/
def restore_table_from_s3_export (s3 : List S3Obj)
    (wenv : Nat → Nat → Nat → List Jval → Option (List Jval))
    (clearOutcome : Option Nat) (t : String) (e : ExportInfo)
    (clearExisting : Bool) (maxWorkers : Nat) : RestoreResult × List Eff :=
  let clearEffs : List Eff := if clearExisting then [Eff.clearData t] else []
  if clearExisting && clearOutcome.isNone then
    (⟨t, "FAILED", 0, 0, 0, some "Failed to clear existing table data"⟩, clearEffs)
  else
    match get_export_data_files s3 e with
    | .error msg => (⟨t, "FAILED", 0, 0, 0, some msg⟩, clearEffs)
    | .ok files =>
        let parsed := files.enum.map (fun p => (p.1, (parse_dynamodb_json_file (fileLines s3 p.2)).1))
        let active := parsed.filter (fun q => !q.2.isEmpty)
        let written := (active.map (fun q => (batch_write_items_to_table (wenv q.1) q.2 maxWorkers).1)).sum
        let failedN := (active.map (fun q => (batch_write_items_to_table (wenv q.1) q.2 maxWorkers).2)).sum
        let processed := (active.map (fun q => q.2.length)).sum
        let effs := clearEffs ++ (active.map (fun q => writeEffects t (wenv q.1) q.2)).flatten
        let status := if failedN == 0 then "COMPLETED"
          else if written > 0 then "PARTIAL_SUCCESS" else "FAILED"
        (⟨t, status, processed, written, failedN, none⟩, effs)

/-- `get_tables_to_restore` (lines 46-65): the three fixed environment-derived
table names. -/
def tablesToRestore (environment : String) : List String :=
  ["mfa-api_" ++ environment ++ "_u2f_global",
   "mfa-api_" ++ environment ++ "_totp_global",
   "mfa-api_" ++ environment ++ "_api-key_global"]

/-- The table-selection step of `lambda_handler` (lines 662-672): no requested
tables means all available ones; otherwise the requested tables are filtered
against the available list (invalid ones are dropped with only a log warning)
and an empty remainder raises (`none`). -/
def selectTables (available specific : List String) : Option (List String) :=
  if specific.isEmpty then some available
  else if (specific.filter (fun t => available.contains t)).isEmpty then none
  else some (specific.filter (fun t => available.contains t))

/-- Backup-date resolution (lines 677-682): `'latest'` takes the newest
available date (raising, `none`, when there is none). -/
def resolveBackupDate (s3 : List S3Obj) (bd : String) : Option String :=
  if bd == "latest" then (get_available_backups s3).head? else some bd

/-- The export-lookup construction of lines 689-700: valid exports for
requested tables, keyed by table name, later entries overwriting earlier ones
(Python dict assignment). -/
def buildAvailable (tables : List String) (exports : List ExportInfo) :
    List (String × ExportInfo) :=
  exports.foldl (fun acc e =>
    if validate_export_info e && tables.contains e.table_name then
      (acc.filter (fun p => !(p.1 == e.table_name))) ++ [(e.table_name, e)]
    else acc) []

/-- Dictionary lookup in the export map. -/
def lookupA (l : List (String × ExportInfo)) (t : String) : Option ExportInfo :=
  (l.find? (fun p => p.1 == t)).map (fun p => p.2)

/-- One entry of the dry run's `validation_results` (lines 735-758),
restricted to the fields the claims are about. -/
structure VEntry where
  table_name : String
  status : String
  data_files_count : Nat
  estimated_size : Nat
deriving Repr, DecidableEq

/-- `head_object` size of a key, contributing 0 when the call fails
(the source's `except: pass`). -/
def headSize (s3 : List S3Obj) (k : String) : Nat :=
  match s3.find? (fun o => o.key == k) with
  | some o => o.size
  | none => 0

/-- One table's dry-run validation entry: `NO_EXPORT` when the table has no
valid export, `ERROR` when data-file discovery fails, otherwise `READY` with
the file count and the sampled size of the first five files. -/
def dryRunEntry (s3 : List S3Obj) (t : String) : Option ExportInfo → VEntry
  | none => ⟨t, "NO_EXPORT", 0, 0⟩
  | some e =>
      match get_export_data_files s3 e with
      | .error _ => ⟨t, "ERROR", 0, 0⟩
      | .ok fs => ⟨t, "READY", fs.length, ((fs.take 5).map (fun k => headSize s3 k)).sum⟩

/-- The invocation event of the disaster-recovery handler, with the source's
defaults (`backup_date='latest'`, `tables=[]`, flags false, `max_workers=5`). -/
structure Event where
  backup_date : String := "latest"
  tables : List String := []
  dry_run : Bool := false
  clear_existing_data : Bool := false
  max_workers : Nat := 5

/-- The collaborators of the disaster-recovery handler: the environment
configuration, the S3 bucket contents, the remote write responses (by table,
file, chunk and attempt) and the outcome of table clearing by table. -/
structure DREnv where
  backup_bucket : String
  environment : String
  s3 : List S3Obj
  wenv : String → Nat → Nat → Nat → List Jval → Option (List Jval)
  clearOutcome : String → Option Nat

/-- The observable result of one handler invocation: the status code, the
dry-run validation results (when a dry run reached them), the restore results
(when a real restore ran) and every remote state mutation performed. -/
structure HandlerRes where
  statusCode : Nat
  validation : Option (List VEntry)
  restores : Option (List RestoreResult)
  writes : List Eff

/-- The handler's catch-all error response (lines 866-883): status 500,
nothing mutated. -/
def err500 : HandlerRes := ⟨500, none, none, []⟩

/-- The restore loop of lines 784-813: tables without a valid export are
recorded as `SKIPPED`; the others run `restore_table_from_s3_export`. -/
def runRestores (env : DREnv) (tables : List String)
    (avail : List (String × ExportInfo)) (ev : Event) :
    List RestoreResult × List Eff :=
  let rs := tables.map (fun t =>
    match lookupA avail t with
    | none => ((⟨t, "SKIPPED", 0, 0, 0, some "No valid export found for this table"⟩ : RestoreResult),
               ([] : List Eff))
    | some e => restore_table_from_s3_export env.s3 (env.wenv t) (env.clearOutcome t) t e
        ev.clear_existing_data ev.max_workers)
  (rs.map (fun p => p.1), (rs.map (fun p => p.2)).flatten)

/-- The response status of a completed restore run (lines 854-859). -/
def restoreStatusCode (rs : List RestoreResult) : Nat :=
  let succ := (rs.filter (fun r => r.status == "COMPLETED")).length
  let part := (rs.filter (fun r => r.status == "PARTIAL_SUCCESS")).length
  let fail := (rs.filter (fun r => r.status == "FAILED")).length
  if fail > 0 && succ == 0 then 500
  else if fail > 0 || part > 0 then 207
  else 200

/-- `lambda_handler` of the disaster-recovery lambda (lines 627-883).
Every raise inside the `try` lands in the catch-all 500 response:
missing environment variables, no selectable table, no backups for `'latest'`,
a missing/invalid manifest, or no valid export for any requested table.
The dry-run branch (lines 716-781) only reads from S3 and returns 200 with
per-table validation entries; the restore branch runs the per-table restores
and derives the aggregate status code. -/
def lambda_handler (env : DREnv) (ev : Event) : HandlerRes :=
  if env.backup_bucket == "" || env.environment == "" then err500
  else
    match selectTables (tablesToRestore env.environment) ev.tables with
    | none => err500
    | some tables =>
        match resolveBackupDate env.s3 ev.backup_date with
        | none => err500
        | some date =>
            match get_backup_manifest env.s3 date with
            | none => err500
            | some m =>
                if (buildAvailable tables m.exports).isEmpty then err500
                else if ev.dry_run then
                  ⟨200, some (tables.map (fun t =>
                    dryRunEntry env.s3 t (lookupA (buildAvailable tables m.exports) t))), none, []⟩
                else
                  ⟨restoreStatusCode (runRestores env tables (buildAvailable tables m.exports) ev).1,
                   none,
                   some (runRestores env tables (buildAvailable tables m.exports) ev).1,
                   (runRestores env tables (buildAvailable tables m.exports) ev).2⟩

end Recovery

namespace Backup

/-- C1 counterexample input: one export that timed out while still
`IN_PROGRESS` (exactly what `wait_for_exports_completion` produces for a job
that never terminates), with a nonzero reported item count. -/
def exC1 : List ExportRec :=
  [{ table_name := "t1", export_arn := some "arn1", status := "IN_PROGRESS",
     item_count := some 5, timeout := true }]

/-- C7 scenario: tables `t1`,`t2` exist and start exports `arn1`,`arn2`;
`t3` does not exist (`ResourceNotFoundException`). -/
def exC7Start : StartEnv where
  tableExists := fun t => !(t == "t3")
  startExport := fun t =>
    if t == "t1" then .ok "arn1"
    else if t == "t2" then .ok "arn2"
    else .error "no such table"

/-- C7 scenario polling: both exports complete immediately, with 500 and 1200
items. -/
def exC7Poll : Nat → String → Except String OkDesc := fun _ arn =>
  if arn == "arn1" then .ok ⟨"COMPLETED", 500, 0⟩ else .ok ⟨"COMPLETED", 1200, 0⟩

/-- A remote that never reports a terminal status (for the C3 witness). -/
def exPollInProg : Nat → String → Except String OkDesc :=
  fun _ _ => .ok ⟨"IN_PROGRESS", 0, 0⟩

end Backup

namespace Recovery

/-- C5 scenario remote: the second of the three chunks of `List.range 60`
(items 25..49) reports items 25,26,27,28 unprocessed on its first attempt; the
retry succeeds only if exactly those four items are resubmitted; every other
call succeeds outright. -/
def exC5Env : Nat → Nat → List Nat → Option (List Nat) := fun c a s =>
  if c == 1 && a == 0 then some [25, 26, 27, 28]
  else if c == 1 && a == 1 then (if s == [25, 26, 27, 28] then some [] else some s)
  else some []

/-- A wire item whose attribute value carries the unknown type tag `ZZZ`. -/
def unknownTagItem : Jval := .obj [("x", .obj [("ZZZ", .str "1")])]

/-- A data-file line holding `unknownTagItem` under the `Item` key. -/
def exLineC8 : Line := .ok (.obj [("Item", unknownTagItem)])

/-- A well-formed export line with a normal string attribute. -/
def exGoodLine : Line := .ok (.obj [("Item", .obj [("pk", .obj [("S", .str "a")])])])

/-- C9 counterexample file: a malformed line, then a line whose JSON is the
bare number `5` (on which `'Item' in item_data` raises `TypeError`), then a
well-formed item line. -/
def exBadFile : List Line := [Line.malformed, Line.ok (Jval.num 5), exGoodLine]

/-- C4 witness bucket: data files only in the direct layout under the export
prefix (no `AWSDynamoDB/` directory), plus one non-data object. -/
def exS3C4 : List S3Obj :=
  [⟨"native-exports/2025-01-01/tbl/a.json", 5, .blob⟩,
   ⟨"native-exports/2025-01-01/tbl/b.json.gz", 7, .blob⟩,
   ⟨"native-exports/2025-01-01/tbl/readme.txt", 1, .blob⟩]

/-- C4 witness export entry for the direct-layout prefix. -/
def exInfoC4 : ExportInfo :=
  { table_name := "tbl", s3Pre := "native-exports/2025-01-01/tbl/", status := "COMPLETED" }

/-- A backup manifest holding one valid completed export, for the `totp`
table only. -/
def exManifestDoc : ManifestDoc :=
  ⟨[{ table_name := "mfa-api_prod_totp_global", s3Pre := "exports/2025-01-01/totp/",
      status := "COMPLETED", item_count := 3, export_arn := "arn-totp" }]⟩

/-- A bucket holding only that manifest at `exports/2025-01-01/manifest.json`. -/
def exS3C2 : List S3Obj :=
  [⟨"exports/2025-01-01/manifest.json", 10, .doc (some exManifestDoc)⟩]

/-- Handler environment over `exS3C2`. -/
def exEnvC2 : DREnv where
  backup_bucket := "b"
  environment := "prod"
  s3 := exS3C2
  wenv := fun _ _ _ _ _ => some []
  clearOutcome := fun _ => some 0

/-- C2 counterexample event: a dry run requesting only the `u2f` table, for
which the manifest has no export. -/
def exEventC2 : Event :=
  { backup_date := "2025-01-01", tables := ["mfa-api_prod_u2f_global"], dry_run := true }

/-- C2 witness event: a dry run requesting the `u2f` table (no export) and the
`totp` table (valid export). -/
def exEventC2w : Event :=
  { backup_date := "2025-01-01",
    tables := ["mfa-api_prod_u2f_global", "mfa-api_prod_totp_global"], dry_run := true }

/-- C10 counterexample environment: an empty bucket (no backups, no
manifest). -/
def exEnvC10 : DREnv where
  backup_bucket := "b"
  environment := "prod"
  s3 := []
  wenv := fun _ _ _ _ _ => some []
  clearOutcome := fun _ => some 0

/-- C10 counterexample event: a valid table is requested, not a dry run. -/
def exEventC10 : Event :=
  { backup_date := "2025-01-01", tables := ["mfa-api_prod_u2f_global"] }

/-- C10 witness event: only an invalid table name is requested. -/
def exEventC10b : Event :=
  { backup_date := "2025-01-01", tables := ["not-a-table"] }

/-- C6 witness restore input: discovery fails (invalid export entry), so the
restore returns a `FAILED` result with all counters zero. -/
def exInfoC6 : ExportInfo := { table_name := "t" }

/-- A remote write that always processes everything. -/
def allOkW : Nat → Nat → Nat → List Jval → Option (List Jval) :=
  fun _ _ _ _ => some []

/-- A line is safe when handling it cannot raise the `TypeError` of
`'Item' in item_data` / `item_data['Item']` (see `lineStep`). -/
def lineSafe : Line → Bool
  | .blank => true
  | .malformed => true
  | .ok j =>
      match lineStep j with
      | .error _ => false
      | .ok _ => true

/-- The item a single safe line contributes to the parse result, if any. -/
def extractOf : Line → Option Jval
  | .blank => none
  | .malformed => none
  | .ok j =>
      match lineStep j with
      | .error _ => none
      | .ok r => r

/-- The number of lines counted by the `json.JSONDecodeError` handler. -/
def malformedCount (lines : List Line) : Nat :=
  lines.countP (fun l => match l with | .malformed => true | _ => false)

end Recovery

namespace Backup

/-- Splitting a sum over a list into the summands satisfying `p` and the
rest. -/
theorem sum_map_split {α : Type} (p : α → Bool) (f : α → Nat) (l : List α) :
    (l.map f).sum
      = ((l.filter p).map f).sum + ((l.filter (fun x => !(p x))).map f).sum := by
  induction l with
  | nil => simp
  | cons x xs ih =>
    by_cases h : p x = true
    · simp [List.filter_cons, h, ih]
      omega
    · simp [List.filter_cons, h, ih]
      omega

/-- The lengths of two disjoint filters add up to the length of the
disjunction filter. -/
theorem length_filter_disjoint {α : Type} (p q : α → Bool)
    (hx : ∀ x, p x = true → q x = false) (l : List α) :
    (l.filter p).length + (l.filter q).length
      = (l.filter (fun x => p x || q x)).length := by
  induction l with
  | nil => simp
  | cons x xs ih =>
    by_cases h : p x = true
    · have hq := hx x h
      simp [List.filter_cons, h, hq, ih]
      omega
    · by_cases h2 : q x = true
      · simp [List.filter_cons, h, h2, ih]
        omega
      · simp [List.filter_cons, h, h2, ih]

/-- Claim C1 (amended): in the manifest built by `create_export_manifest`,
`successful_exports + failed_exports ≤ total_exports`, with equality exactly
when every entry's status is `COMPLETED`, `FAILED` or `UNKNOWN` (a timed-out
entry retains its last polled status, e.g. `IN_PROGRESS`, and is counted in
neither bucket); and `total_items_exported` sums the item counts of all
entries — the COMPLETED ones plus the non-COMPLETED ones — not only the
COMPLETED ones. -/
theorem C1_amended (exports : List ExportRec) :
    (create_export_manifest exports).successful_exports
        + (create_export_manifest exports).failed_exports
      ≤ (create_export_manifest exports).total_exports
    ∧ ((create_export_manifest exports).successful_exports
          + (create_export_manifest exports).failed_exports
        = (create_export_manifest exports).total_exports
        ↔ ∀ e ∈ exports,
            e.status = "COMPLETED" ∨ e.status = "FAILED" ∨ e.status = "UNKNOWN")
    ∧ (create_export_manifest exports).total_items_exported
        = spec_completed_items_sum exports
          + ((exports.filter (fun e => !(e.status == "COMPLETED"))).map itemVal).sum
    ∧ (create_export_manifest exports).total_size_bytes
        = ((exports.filter (fun e => e.status == "COMPLETED")).map sizeVal).sum
          + ((exports.filter (fun e => !(e.status == "COMPLETED"))).map sizeVal).sum := by
  have hdisj : ∀ e : ExportRec, (e.status == "COMPLETED") = true →
      (e.status == "FAILED" || e.status == "UNKNOWN") = false := by
    intro e he
    have h : e.status = "COMPLETED" := by simpa using he
    simp [h]
  have hlen := length_filter_disjoint _ _ hdisj exports
  refine ⟨?_, ?_, ?_, ?_⟩
  · simp only [create_export_manifest]
    rw [hlen]
    exact List.length_filter_le _ _
  · simp only [create_export_manifest]
    rw [hlen]
    constructor
    · intro h
      have hfe : exports.filter
          (fun e => e.status == "COMPLETED" || (e.status == "FAILED" || e.status == "UNKNOWN"))
          = exports :=
        (List.filter_sublist _).eq_of_length h
      intro e he
      have := List.filter_eq_self.mp hfe e he
      simpa using this
    · intro h
      have hfe : exports.filter
          (fun e => e.status == "COMPLETED" || (e.status == "FAILED" || e.status == "UNKNOWN"))
          = exports := by
        apply List.filter_eq_self.mpr
        intro e he
        simpa using h e he
      rw [hfe]
  · simp only [create_export_manifest, spec_completed_items_sum]
    exact sum_map_split (fun e => e.status == "COMPLETED") itemVal exports
  · simp only [create_export_manifest]
    exact sum_map_split (fun e => e.status == "COMPLETED") sizeVal exports

/-- Claim C1 (counterexample): for a batch containing a single export that
timed out while still `IN_PROGRESS` with 5 reported items,
`successful_exports + failed_exports = 0 ≠ 1 = total_exports`, and
`total_items_exported = 5` although no entry has status `COMPLETED`. -/
theorem C1_counterexample :
    ¬((create_export_manifest exC1).successful_exports
        + (create_export_manifest exC1).failed_exports
      = (create_export_manifest exC1).total_exports)
    ∧ ¬((create_export_manifest exC1).total_items_exported
      = spec_completed_items_sum exC1) := by
  constructor <;> decide

end Backup

namespace Backup

/-- `check_export_status` always records the polled ARN. -/
theorem check_arn (poll : Nat → String → Except String OkDesc) (t : Nat) (arn : String) :
    (check_export_status poll t arn).export_arn = arn := by
  unfold check_export_status
  cases poll t arn <;> rfl

/-- Under a remote that never reports a terminal status, the monitoring loop
keeps every ARN active through each round and finally times every job out: it
returns a final time `T < maxWait + 30` and the accumulator extended by the
timed-out records polled at `T`. -/
theorem waitLoop_nonterminal (poll : Nat → String → Except String OkDesc) (maxWait : Nat)
    (hnt : ∀ t a, isTerminalStatus (check_export_status poll t a).status = false) :
    ∀ fuel elapsed arns acc, ∃ T, elapsed ≤ T ∧
      (elapsed < maxWait + 30 → T < maxWait + 30) ∧
      waitLoop poll maxWait fuel elapsed arns acc
        = (T, acc ++ _handle_timed_out_exports poll T arns) := by
  have hproc : ∀ t a, _process_export_arn poll t a = (check_export_status poll t a, false) := by
    intro t a
    simp [_process_export_arn, hnt t a]
  intro fuel
  induction fuel with
  | zero =>
    intro elapsed arns acc
    refine ⟨elapsed, le_refl _, fun h => h, ?_⟩
    by_cases ha : arns.isEmpty
    · have h0 : arns = [] := by simpa using ha
      subst h0
      simp [waitLoop, _handle_timed_out_exports]
    · simp [waitLoop, ha]
  | succ fuel ih =>
    intro elapsed arns acc
    by_cases ha : arns.isEmpty
    · have h0 : arns = [] := by simpa using ha
      subst h0
      exact ⟨elapsed, le_refl _, fun h => h, by simp [waitLoop, _handle_timed_out_exports]⟩
    · by_cases ht : maxWait ≤ elapsed
      · exact ⟨elapsed, le_refl _, fun h => h, by simp [waitLoop, ha, ht]⟩
      · have hstep : arns.map (fun a => _process_export_arn poll elapsed a)
            = arns.map (fun a => (check_export_status poll elapsed a, false)) :=
          List.map_congr_left (fun a _ => hproc elapsed a)
        have hcomp : ((arns.map (fun a => (check_export_status poll elapsed a, false))).filter
            (fun p => p.2)).map (fun p => p.1) = [] := by
          rw [List.filter_eq_nil_iff.mpr]
          · rfl
          · intro p hp
            obtain ⟨a, _, rfl⟩ := List.mem_map.mp hp
            simp
        have hrem : ((arns.map (fun a => (check_export_status poll elapsed a, false))).filter
            (fun p => !p.2)).map (fun p => p.1.export_arn) = arns := by
          rw [List.filter_eq_self.mpr]
          · rw [List.map_map]
            have : ∀ a ∈ arns, (check_export_status poll elapsed a).export_arn = a :=
              fun a _ => check_arn poll elapsed a
            calc arns.map (fun a => (check_export_status poll elapsed a).export_arn)
                = arns.map id := List.map_congr_left (fun a h => this a h)
              _ = arns := List.map_id arns
          · intro p hp
            obtain ⟨a, _, rfl⟩ := List.mem_map.mp hp
            simp
        obtain ⟨T, hT0, hT1, hT2⟩ := ih (elapsed + 30) arns acc
        refine ⟨T, by omega, fun _ => hT1 (by omega), ?_⟩
        conv_lhs => rw [waitLoop]
        rw [if_neg ha, if_neg ht]
        simp only [hstep, hcomp, hrem]
        rw [if_neg ha, List.append_nil]
        exact hT2

/-- Claim C3: monitoring terminates.  Given jobs that never reach a terminal
remote status, `wait_for_exports_completion` (poll interval 30, deadline
`maxWait`, default 840) returns within deadline plus one poll interval (the
returned first component is the total slept time), returns one result per job,
and every job is returned with `timeout = true` together with the status last
observed by the final extra poll. -/
theorem C3_theorem (poll : Nat → String → Except String OkDesc)
    (arns : List String) (maxWait : Nat)
    (hnt : ∀ t a, isTerminalStatus (check_export_status poll t a).status = false) :
    (wait_for_exports_completion poll arns maxWait).1 < maxWait + 30
    ∧ (wait_for_exports_completion poll arns maxWait).2.length = arns.length
    ∧ ∀ s ∈ (wait_for_exports_completion poll arns maxWait).2,
        s.timeout = true
        ∧ s.status = (check_export_status poll
            (wait_for_exports_completion poll arns maxWait).1 s.export_arn).status := by
  obtain ⟨T, hT0, hT1, hT2⟩ :=
    waitLoop_nonterminal poll maxWait hnt (maxWait / 30 + 2) 0 arns []
  unfold wait_for_exports_completion
  rw [hT2]
  refine ⟨hT1 (by omega), ?_, ?_⟩
  · simp [_handle_timed_out_exports]
  · intro s hs
    simp only [_handle_timed_out_exports, List.nil_append, List.mem_map] at hs
    obtain ⟨a, _, rfl⟩ := hs
    refine ⟨rfl, ?_⟩
    have harn : ({ check_export_status poll T a with timeout := true } : StatusInfo).export_arn
        = a := by
      rw [check_arn poll T a]  -- placeholder, fixed below if needed
    rw [harn]

/-- Claim C3 (witness): two jobs that always report `IN_PROGRESS`, monitored
with the default 840-second deadline, yield a run that sleeps less than
870 seconds and returns exactly two results. -/
theorem C3_witness :
    (wait_for_exports_completion exPollInProg ["a", "b"] 840).1 < 840 + 30
    ∧ (wait_for_exports_completion exPollInProg ["a", "b"] 840).2.length = 2 :=
  ⟨(C3_theorem exPollInProg ["a", "b"] 840 (fun _ _ => rfl)).1,
   (C3_theorem exPollInProg ["a", "b"] 840 (fun _ _ => rfl)).2.1⟩

/-- Claim C7: an export batch over 3 tables where two exports complete with
500 and 1200 items and one fails because the table is not found produces
results for all three tables (the failure does not abort the batch), a
manifest with `total_exports = 3`, `successful_exports = 2`,
`failed_exports = 1`, `total_items_exported = 1700`, and run status code
207. -/
theorem C7_theorem :
    run_export_batch exC7Start exC7Poll ["t1", "t2", "t3"] "SUCCESS"
      = (⟨3, 2, 1, 1700, 0⟩, 207) := by
  decide

end Backup

namespace Recovery

/-- Concatenating the chunks gives back the original list. -/
theorem chunksAux_flatten {α : Type} (n : Nat) (hn : 0 < n) :
    ∀ (fuel : Nat) (l : List α), l.length ≤ fuel → (chunksAux n fuel l).flatten = l := by
  intro fuel
  induction fuel with
  | zero =>
    intro l hl
    have h0 : l = [] := List.eq_nil_of_length_eq_zero (by omega)
    subst h0
    rfl
  | succ fuel ih =>
    intro l hl
    cases l with
    | nil => rfl
    | cons x xs =>
      simp only [chunksAux, List.flatten_cons]
      rw [ih ((x :: xs).drop n) (by simp only [List.length_drop]; simp at hl ⊢; omega)]
      exact List.take_append_drop n (x :: xs)

/-- `chunksOf` version of `chunksAux_flatten`. -/
theorem chunksOf_flatten {α : Type} (n : Nat) (hn : 0 < n) (l : List α) :
    (chunksOf n l).flatten = l :=
  chunksAux_flatten n hn l.length l (le_refl _)

/-- Every chunk has at most `n` elements. -/
theorem chunksAux_mem_length {α : Type} (n : Nat) :
    ∀ (fuel : Nat) (l : List α) c, c ∈ chunksAux n fuel l → c.length ≤ n := by
  intro fuel
  induction fuel with
  | zero =>
    intro l c hc
    simp [chunksAux] at hc
  | succ fuel ih =>
    intro l c hc
    cases l with
    | nil => simp [chunksAux] at hc
    | cons x xs =>
      simp only [chunksAux, List.mem_cons] at hc
      cases hc with
      | inl h => subst h; simp [List.length_take_le]
      | inr h => exact ih _ c h

/-- Pointwise sum of two mapped lists. -/
theorem sum_map_add {α : Type} (f g : α → Nat) (l : List α) :
    (l.map f).sum + (l.map g).sum = (l.map (fun x => f x + g x)).sum := by
  induction l with
  | nil => rfl
  | cons x xs ih =>
    simp only [List.map_cons, List.sum_cons]
    omega

/-- A sublist of naturals has a smaller sum. -/
theorem sublist_sum_le (l₁ l₂ : List Nat) (h : l₁.Sublist l₂) : l₁.sum ≤ l₂.sum := by
  induction h with
  | slnil => simp
  | cons x _ ih => simp only [List.sum_cons]; omega
  | cons₂ x _ ih => simp only [List.sum_cons]; omega

/-- Shape of the retry loop: at least one and at most `r` remote calls; the
first call submits the incoming requests; the backoffs are exactly
`min(2^attempt, 10)` for the attempts that retried; and consecutive
submissions follow the resubmission discipline (`subsChain`). -/
theorem go_shape {α : Type} (env : Nat → List α → Option (List α)) (L : Nat) :
    ∀ (r : Nat) (a : Nat) (put : List α), 1 ≤ r →
      (write_batch_go env L r a put).submissions.head? = some put
      ∧ 1 ≤ (write_batch_go env L r a put).submissions.length
      ∧ (write_batch_go env L r a put).submissions.length ≤ r
      ∧ (write_batch_go env L r a put).backoffs
          = (List.range ((write_batch_go env L r a put).submissions.length - 1)).map
              (fun i => Nat.min (2 ^ (a + i)) 10)
      ∧ subsChain env a (write_batch_go env L r a put).submissions := by
  intro r
  induction r using Nat.strong_induction_on with
  | _ r ih =>
    match r with
    | 0 => intro a put h; omega
    | 1 =>
      intro a put _
      cases henv : env a put with
      | none => simp [write_batch_go, henv, subsChain]
      | some u => simp [write_batch_go, henv, subsChain]
    | (r + 2) =>
      intro a put _
      cases henv : env a put with
      | none =>
        obtain ⟨h1, h2, h3, h4, h5⟩ := ih (r + 1) (by omega) (a + 1) put (by omega)
        simp only [write_batch_go, henv]
        cases hsubs : (write_batch_go env L (r + 1) (a + 1) put).submissions with
        | nil => rw [hsubs] at h2; simp at h2
        | cons s₂ rest =>
          rw [hsubs] at h1 h3 h4 h5
          have hs₂ : s₂ = put := by simpa using h1
          refine ⟨rfl, by simp, by simp at h3 ⊢; omega, ?_, ?_⟩
          · rw [h4]
            simp only [List.length_cons]
            rw [show rest.length + 1 + 1 - 1 = (rest.length + 1 - 1) + 1 from by omega,
              List.range_succ_eq_map]
            simp only [List.map_cons, List.map_map, Nat.add_zero]
            refine congrArg₂ _ rfl ?_
            refine List.map_congr_left ?_
            intro i _
            simp only [Function.comp]
            rw [show a + 1 + i = a + (i + 1) from by omega]
          · exact ⟨by rw [henv]; exact hs₂, h5⟩
      | some u =>
        by_cases hu : u.isEmpty
        · simp [write_batch_go, henv, hu, subsChain]
        · obtain ⟨h1, h2, h3, h4, h5⟩ := ih (r + 1) (by omega) (a + 1) u (by omega)
          simp only [write_batch_go, henv, hu, Bool.false_eq_true, if_false]
          cases hsubs : (write_batch_go env L (r + 1) (a + 1) u).submissions with
          | nil => rw [hsubs] at h2; simp at h2
          | cons s₂ rest =>
            rw [hsubs] at h1 h3 h4 h5
            have hs₂ : s₂ = u := by simpa using h1
            refine ⟨rfl, by simp, by simp at h3 ⊢; omega, ?_, ?_⟩
            · rw [h4]
              simp only [List.length_cons]
              rw [show rest.length + 1 + 1 - 1 = (rest.length + 1 - 1) + 1 from by omega,
                List.range_succ_eq_map]
              simp only [List.map_cons, List.map_map, Nat.add_zero]
              refine congrArg₂ _ rfl ?_
              refine List.map_congr_left ?_
              intro i _
              simp only [Function.comp]
              rw [show a + 1 + i = a + (i + 1) from by omega]
            · exact ⟨by rw [henv]; simpa using hs₂, h5⟩

/-- When the retry loop ends with a response (not an exception), the items
still unprocessed in that last response are exactly the failed count, and the
rest of the chunk is the successful count. -/
theorem go_final {α : Type} (env : Nat → List α → Option (List α)) (L : Nat) :
    ∀ (r : Nat) (a : Nat) (put : List α) (u : List α),
      (write_batch_go env L r a put).finalUnprocessed = some u →
      (write_batch_go env L r a put).failed = u.length
      ∧ (write_batch_go env L r a put).successful = L - u.length := by
  intro r
  induction r using Nat.strong_induction_on with
  | _ r ih =>
    match r with
    | 0 => intro a put u h; simp [write_batch_go] at h
    | 1 =>
      intro a put u h
      cases henv : env a put with
      | none => simp [write_batch_go, henv] at h
      | some v =>
        simp only [write_batch_go, henv] at h ⊢
        have hv : v = u := by simpa using h
        subst hv
        exact ⟨rfl, rfl⟩
    | (r + 2) =>
      intro a put u h
      cases henv : env a put with
      | none =>
        simp only [write_batch_go, henv] at h ⊢
        exact ih (r + 1) (by omega) (a + 1) put u h
      | some v =>
        by_cases hv : v.isEmpty = true
        · have hv0 : v = [] := by simpa using hv
          subst hv0
          simp only [write_batch_go, henv, hv, if_pos] at h ⊢
          have : u = [] := by simpa using h.symm
          subst this
          exact ⟨rfl, rfl⟩
        · simp only [write_batch_go, henv, hv, Bool.false_eq_true, if_false] at h ⊢
          exact ih (r + 1) (by omega) (a + 1) v u h

/-- With well-formed remote responses, the retry loop accounts for every item
of the chunk: `batch_successful + batch_failed = len(batch_items)`. -/
theorem go_sum {α : Type} (env : Nat → List α → Option (List α)) (L : Nat)
    (hw : wfResp env) :
    ∀ (r : Nat) (a : Nat) (put : List α), put.length ≤ L →
      (write_batch_go env L r a put).successful + (write_batch_go env L r a put).failed
        = L := by
  intro r
  induction r using Nat.strong_induction_on with
  | _ r ih =>
    match r with
    | 0 => intro a put hp; simp [write_batch_go]
    | 1 =>
      intro a put hp
      cases henv : env a put with
      | none => simp [write_batch_go, henv]
      | some v =>
        have hlen := hw a put v henv
        simp only [write_batch_go, henv]
        omega
    | (r + 2) =>
      intro a put hp
      cases henv : env a put with
      | none =>
        simp only [write_batch_go, henv]
        exact ih (r + 1) (by omega) (a + 1) put hp
      | some v =>
        by_cases hv : v.isEmpty = true
        · simp [write_batch_go, henv, hv]
        · have hlen := hw a put v henv
          simp only [write_batch_go, henv, hv, Bool.false_eq_true, if_false]
          exact ih (r + 1) (by omega) (a + 1) v (by omega)

/-- `write_batch` accounts for every item of its chunk. -/
theorem write_batch_sum {α : Type} (env : Nat → List α → Option (List α))
    (batch : List α) (hw : wfResp env) :
    (write_batch env batch).successful + (write_batch env batch).failed = batch.length :=
  go_sum env batch.length hw 3 0 batch (le_refl _)

/-- Summing `successful + failed` over all chunk traces of one
`batch_write_items_to_table` call gives the total item count. -/
theorem traces_total {α : Type} (env : Nat → Nat → List α → Option (List α))
    (items : List α) (hw : wfRespC env) :
    ((batchTraces env items).map (fun t => t.successful + t.failed)).sum = items.length := by
  unfold batchTraces
  rw [List.map_map]
  have h1 : (chunksOf 25 items).enum.map
      ((fun t => t.successful + t.failed) ∘ (fun ic => write_batch (env ic.1) ic.2))
      = (chunksOf 25 items).enum.map (fun ic => ic.2.length) := by
    refine List.map_congr_left ?_
    intro ic _
    exact write_batch_sum (env ic.1) ic.2 (hw ic.1)
  rw [h1]
  have h2 : (chunksOf 25 items).enum.map (fun ic => ic.2.length)
      = ((chunksOf 25 items).enum.map Prod.snd).map List.length := by
    rw [List.map_map]
    rfl
  rw [h2, List.enum_map_snd, ← List.length_flatten, chunksOf_flatten 25 (by omega)]

/-- The totals of `batch_write_items_to_table` account for every item. -/
theorem bw_totals {α : Type} (env : Nat → Nat → List α → Option (List α))
    (items : List α) (mw : Nat) (hw : wfRespC env) :
    (batch_write_items_to_table env items mw).1 + (batch_write_items_to_table env items mw).2
      = items.length := by
  unfold batch_write_items_to_table
  rw [sum_map_add]
  exact traces_total env items hw

/-- Claim C5: the batch-write engine chunks items into groups of at most 25
whose concatenation is the input; each chunk makes at most 3 remote calls, the
first submitting the chunk, every retry resubmitting exactly the reported
unprocessed subset (or repeating the requests after an exception), with
backoff `min(2^attempt, 10)` before each retry; items unprocessed after the
final response count as failed; and the 60-item scenario (second of three
chunks reports 4 unprocessed once, the retry succeeds only when exactly those
4 are resubmitted) yields `items_written = 60`, `items_failed = 0`. -/
theorem C5_theorem :
    (∀ (α : Type) (l : List α),
        (∀ c ∈ chunksOf 25 l, c.length ≤ 25) ∧ (chunksOf 25 l).flatten = l)
    ∧ (∀ (α : Type) (env : Nat → List α → Option (List α)) (batch : List α),
        (write_batch env batch).submissions.length ≤ 3
        ∧ (write_batch env batch).submissions.head? = some batch
        ∧ subsChain env 0 (write_batch env batch).submissions
        ∧ (write_batch env batch).backoffs
            = (List.range ((write_batch env batch).submissions.length - 1)).map
                (fun i => Nat.min (2 ^ i) 10))
    ∧ (∀ (α : Type) (env : Nat → List α → Option (List α)) (batch : List α) (u : List α),
        (write_batch env batch).finalUnprocessed = some u →
        (write_batch env batch).failed = u.length
        ∧ (write_batch env batch).successful = batch.length - u.length)
    ∧ batch_write_items_to_table exC5Env (List.range 60) 5 = (60, 0) := by
  refine ⟨?_, ?_, ?_, ?_⟩
  · intro α l
    exact ⟨fun c hc => chunksAux_mem_length 25 l.length l c hc,
      chunksOf_flatten 25 (by omega) l⟩
  · intro α env batch
    unfold write_batch
    obtain ⟨h1, _, h3, h4, h5⟩ := go_shape env batch.length 3 0 batch (by omega)
    refine ⟨h3, h1, h5, ?_⟩
    rw [h4]
    refine List.map_congr_left ?_
    intro i _
    simp
  · intro α env batch u h
    exact go_final env batch.length 3 0 batch u h
  · decide

/-- Claim C5 (witness): a remote that processes everything on the first call
ends with an empty unprocessed list and zero failed items. -/
theorem C5_witness :
    (write_batch (fun _ _ => some ([] : List Nat)) [1, 2, 3]).failed = 0 := by
  have h := C5_theorem.2.2.1 Nat (fun _ _ => some []) [1, 2, 3] [] rfl
  simpa using h.1

/-- Claim C6: at any point of the parallel batch write (any subset of chunk
outcomes merged so far, modelled as a sublist of the chunk traces),
`items_written + items_failed ≤ items_processed` for that call; and once a
table's restore completes, `items_written + items_failed = items_processed`
(including the degenerate failure paths, where all three are zero). -/
theorem C6_theorem :
    (∀ (α : Type) (env : Nat → Nat → List α → Option (List α)) (items : List α)
        (part : List (BatchTrace α)), wfRespC env → part.Sublist (batchTraces env items) →
        (part.map (fun t => t.successful)).sum + (part.map (fun t => t.failed)).sum
          ≤ items.length)
    ∧ (∀ (s3 : List S3Obj) (wenv : Nat → Nat → Nat → List Jval → Option (List Jval))
        (co : Option Nat) (t : String) (e : ExportInfo) (ce : Bool) (mw : Nat),
        wfRespF wenv →
        (restore_table_from_s3_export s3 wenv co t e ce mw).1.items_written
          + (restore_table_from_s3_export s3 wenv co t e ce mw).1.items_failed
        = (restore_table_from_s3_export s3 wenv co t e ce mw).1.items_processed) := by
  constructor
  · intro α env items part hw hsub
    rw [sum_map_add]
    calc (part.map (fun t => t.successful + t.failed)).sum
        ≤ ((batchTraces env items).map (fun t => t.successful + t.failed)).sum :=
          sublist_sum_le _ _ (hsub.map _)
      _ = items.length := traces_total env items hw
  · intro s3 wenv co t e ce mw hw
    unfold restore_table_from_s3_export
    by_cases h1 : (ce && co.isNone) = true
    · simp [h1]
    · simp only [h1, Bool.false_eq_true, if_false]
      cases hg : get_export_data_files s3 e with
      | error msg => simp
      | ok files =>
        simp only []
        rw [sum_map_add]
        refine congrArg List.sum (List.map_congr_left ?_)
        intro q _
        exact bw_totals (wenv q.1) q.2 mw (hw q.1)

/-- Claim C6 (witness): a restore whose discovery fails returns zero written,
failed and processed items, and the equality holds. -/
theorem C6_witness :
    (restore_table_from_s3_export [] allOkW (some 0) "t" exInfoC6 false 5).1.items_written
      + (restore_table_from_s3_export [] allOkW (some 0) "t" exInfoC6 false 5).1.items_failed
    = (restore_table_from_s3_export [] allOkW (some 0) "t" exInfoC6 false 5).1.items_processed :=
  C6_theorem.2 [] allOkW (some 0) "t" exInfoC6 false 5 (fun _ _ _ _ u h => by
    simp only [allOkW] at h
    have hu : u = [] := by simpa using h.symm
    simp [hu])

/-- On a file whose lines are all safe, the parse loop appends exactly the
extracted items and counts exactly the malformed lines. -/
theorem parseLinesGo_safe :
    ∀ (lines : List Line) (items : List Jval) (errs : Nat),
      lines.all lineSafe = true →
      parseLinesGo lines items errs
        = .ok (items ++ lines.filterMap extractOf, errs + malformedCount lines) := by
  intro lines
  induction lines with
  | nil =>
    intro items errs _
    simp [parseLinesGo, malformedCount]
  | cons l rest ih =>
    intro items errs h
    rw [List.all_cons, Bool.and_eq_true] at h
    obtain ⟨h1, h2⟩ := h
    cases l with
    | blank =>
      simp only [parseLinesGo, ih _ _ h2, List.filterMap_cons, extractOf,
        malformedCount, List.countP_cons]
      simp
    | malformed =>
      simp only [parseLinesGo, ih _ _ h2, List.filterMap_cons, extractOf,
        malformedCount, List.countP_cons]
      simp only [if_pos]
      refine congrArg Except.ok ?_
      refine congrArg₂ Prod.mk rfl ?_
      omega
    | ok j =>
      cases hs : lineStep j with
      | error e => simp [lineSafe, hs] at h1
      | ok r =>
        cases r with
        | none =>
          simp only [parseLinesGo, hs, ih _ _ h2, List.filterMap_cons, extractOf,
            malformedCount, List.countP_cons]
          simp
        | some it =>
          simp only [parseLinesGo, hs, ih _ _ h2, List.filterMap_cons, extractOf,
            malformedCount, List.countP_cons]
          simp [List.append_assoc]

/-- Claim C8 (amended): the restore path performs no attribute-level decoding
at all.  On safe lines the parse is a verbatim carry: each object line
contributes its `Item` value (or the whole object) unchanged — whatever type
tags it contains — and nothing else is transformed; in particular a
single-object-line file returns exactly that wire value with no error.  There
is no encode/decode pair in the code, so round-tripping is trivially the
identity on the wire form and no tag is ever validated. -/
theorem C8_amended :
    (∀ (lines : List Line), lines.all lineSafe = true →
        parse_dynamodb_json_file lines
          = (lines.filterMap extractOf, malformedCount lines))
    ∧ ∀ (fields : List (String × Jval)),
        parse_dynamodb_json_file [Line.ok (Jval.obj fields)]
          = ([(lookupField fields "Item").getD (Jval.obj fields)], 0) := by
  constructor
  · intro lines h
    unfold parse_dynamodb_json_file
    rw [parseLinesGo_safe lines [] 0 h]
    simp
  · intro fields
    unfold parse_dynamodb_json_file parseLinesGo
    cases hf : lookupField fields "Item" with
    | none => simp [lineStep, hf, parseLinesGo]
    | some v => simp [lineStep, hf, parseLinesGo]

/-- Claim C8 (counterexample): a wire value under the unknown attribute tag
`ZZZ` is accepted and returned verbatim with zero recorded errors — decoding
does not fail on an unknown tag, contradicting the claimed `DecodeError`. -/
theorem C8_counterexample :
    (parse_dynamodb_json_file [exLineC8]).1 = [unknownTagItem]
    ∧ (parse_dynamodb_json_file [exLineC8]).2 = 0
    ∧ ¬((parse_dynamodb_json_file [exLineC8]).1 = []) := by
  refine ⟨rfl, rfl, fun hcon => ?_⟩
  have h : ([unknownTagItem] : List Jval) = [] := hcon
  simp at h

/-- Claim C8 (witness): a blank line parses to no items and no errors. -/
theorem C8_witness : parse_dynamodb_json_file [Line.blank] = ([], 0) :=
  C8_amended.1 [Line.blank] rfl

/-- Claim C9 (amended): on a file whose JSON-decodable lines are all safe
(no bare scalar lines and no string/array lines containing `'Item'`, which
raise a `TypeError` that aborts the whole file), a malformed line is skipped
by itself and counted once: the items are those of the file without it, and
the error count is one higher. -/
theorem C9_amended (pre post : List Line)
    (h1 : pre.all lineSafe = true) (h2 : post.all lineSafe = true) :
    (parse_dynamodb_json_file (pre ++ Line.malformed :: post)).1
      = (parse_dynamodb_json_file (pre ++ post)).1
    ∧ (parse_dynamodb_json_file (pre ++ Line.malformed :: post)).2
      = (parse_dynamodb_json_file (pre ++ post)).2 + 1 := by
  have hall1 : (pre ++ Line.malformed :: post).all lineSafe = true := by
    rw [List.all_append]
    simp [h1, h2, lineSafe]
  have hall2 : (pre ++ post).all lineSafe = true := by
    rw [List.all_append]
    simp [h1, h2]
  unfold parse_dynamodb_json_file
  rw [parseLinesGo_safe _ [] 0 hall1, parseLinesGo_safe _ [] 0 hall2]
  constructor
  · simp [List.filterMap_append, List.filterMap_cons, extractOf]
  · simp only [malformedCount, List.countP_append, List.countP_cons]
    simp
    omega

/-- Claim C9 (counterexample): in a file holding a malformed line, a bare
number line and a well-formed item line, the `TypeError` raised on the number
line aborts the whole file: no items are returned and no error count is
logged, instead of the single malformed line being skipped and the well-formed
item returned. -/
theorem C9_counterexample :
    (parse_dynamodb_json_file exBadFile).1 = []
    ∧ (parse_dynamodb_json_file exBadFile).2 = 0 :=
  ⟨rfl, rfl⟩

/-- Claim C9 (witness): with safe surrounding lines, the malformed line adds
exactly one to the error count. -/
theorem C9_witness :
    (parse_dynamodb_json_file ([exGoodLine] ++ Line.malformed :: [exGoodLine])).2
      = (parse_dynamodb_json_file ([exGoodLine] ++ [exGoodLine])).2 + 1 :=
  (C9_amended [exGoodLine] [exGoodLine] rfl rfl).2

/-- Claim C4: for a validated export entry, data-file discovery tries exactly
the three strategies in order — standard layout (lexicographically greatest
export directory under `<p>/AWSDynamoDB/`), direct files under `<p>/`, then
the exhaustive recursive listing — returns the first non-empty suffix-filtered
result, and fails exactly when all three find nothing; in particular, with no
standard-layout directory and non-empty direct-layout files, it returns
exactly the direct-layout files. -/
theorem C4_theorem (s3 : List S3Obj) (e : ExportInfo)
    (hv : validate_export_info e = true) :
    (∀ fs, get_export_data_files s3 e = .ok fs →
        fs = (if !(strat1 s3 (rstripSlash e.s3Pre)).isEmpty then strat1 s3 (rstripSlash e.s3Pre)
          else if !(strat2 s3 (rstripSlash e.s3Pre)).isEmpty then strat2 s3 (rstripSlash e.s3Pre)
          else strat3 s3 (rstripSlash e.s3Pre)))
    ∧ ((∃ msg, get_export_data_files s3 e = .error msg)
        ↔ strat1 s3 (rstripSlash e.s3Pre) = [] ∧ strat2 s3 (rstripSlash e.s3Pre) = []
          ∧ strat3 s3 (rstripSlash e.s3Pre) = [])
    ∧ (commonPre s3 (rstripSlash e.s3Pre ++ "/AWSDynamoDB/") = [] →
        ¬(strat2 s3 (rstripSlash e.s3Pre) = []) →
        get_export_data_files s3 e = .ok (strat2 s3 (rstripSlash e.s3Pre))) := by
  unfold get_export_data_files
  rw [hv]
  simp only [Bool.not_true, Bool.false_eq_true, if_false]
  refine ⟨?_, ?_, ?_⟩
  · intro fs hfs
    by_cases a1 : (strat1 s3 (rstripSlash e.s3Pre)).isEmpty = true
    · by_cases a2 : (strat2 s3 (rstripSlash e.s3Pre)).isEmpty = true
      · by_cases a3 : (strat3 s3 (rstripSlash e.s3Pre)).isEmpty = true
        · simp [a1, a2, a3] at hfs
        · simp only [a1, a2, a3] at hfs ⊢
          simp at hfs ⊢
          exact hfs.symm
      · simp only [a1, a2] at hfs ⊢
        simp at hfs ⊢
        exact hfs.symm
    · simp only [a1] at hfs ⊢
      simp at hfs ⊢
      exact hfs.symm
  · constructor
    · rintro ⟨msg, hmsg⟩
      by_cases a1 : (strat1 s3 (rstripSlash e.s3Pre)).isEmpty = true
      · by_cases a2 : (strat2 s3 (rstripSlash e.s3Pre)).isEmpty = true
        · by_cases a3 : (strat3 s3 (rstripSlash e.s3Pre)).isEmpty = true
          · refine ⟨by simpa using a1, by simpa using a2, by simpa using a3⟩
          · simp [a1, a2, a3] at hmsg
        · simp [a1, a2] at hmsg
      · simp [a1] at hmsg
    · rintro ⟨b1, b2, b3⟩
      simp [b1, b2, b3]
  · intro hc h2
    have hs1 : strat1 s3 (rstripSlash e.s3Pre) = [] := by
      unfold strat1
      rw [hc]
      rfl
    simp [hs1, h2]

/-- Claim C4 (witness): a bucket whose data files sit only in the direct
layout (no `AWSDynamoDB/` directory) yields exactly those files, in listing
order, with the non-data object filtered out. -/
theorem C4_witness :
    get_export_data_files exS3C4 exInfoC4
      = .ok ["native-exports/2025-01-01/tbl/a.json",
             "native-exports/2025-01-01/tbl/b.json.gz"] :=
  (C4_theorem exS3C4 exInfoC4 (by decide)).2.2 (by decide) (by decide)

/-- The restore result always carries the table it was asked to restore. -/
theorem restore_table_name (s3 : List S3Obj)
    (wenv : Nat → Nat → Nat → List Jval → Option (List Jval)) (co : Option Nat)
    (t : String) (e : ExportInfo) (ce : Bool) (mw : Nat) :
    (restore_table_from_s3_export s3 wenv co t e ce mw).1.table_name = t := by
  unfold restore_table_from_s3_export
  by_cases h1 : (ce && co.isNone) = true
  · simp [h1]
  · simp only [h1, Bool.false_eq_true, if_false]
    cases hg : get_export_data_files s3 e with
    | error msg => simp
    | ok files => simp

/-- Every table selected for restore is in the available list. -/
theorem selectTables_sub (avail specific ts : List String)
    (h : selectTables avail specific = some ts) : ∀ t ∈ ts, t ∈ avail := by
  unfold selectTables at h
  by_cases hsp : specific.isEmpty = true
  · rw [if_pos hsp] at h
    obtain rfl : avail = ts := by simpa using h
    exact fun t ht => ht
  · rw [if_neg hsp] at h
    by_cases hfil : (specific.filter (fun t => avail.contains t)).isEmpty = true
    · rw [if_pos hfil] at h
      exact absurd h (by simp)
    · rw [if_neg hfil] at h
      have hts : specific.filter (fun t => avail.contains t) = ts := by simpa using h
      subst hts
      intro t ht
      have hmem := List.mem_filter.mp ht
      simpa using hmem.2

/-- A requested table outside the available list never reaches the selected
set. -/
theorem selectTables_dropped (avail specific ts : List String)
    (h : selectTables avail specific = some ts) :
    ∀ t ∈ specific, t ∉ avail → t ∉ ts := by
  intro t _ hnot hts
  exact hnot (selectTables_sub avail specific ts h t hts)

/-- Claim C2 (amended): a dry-run invocation performs no writes, clears no
table and mutates no remote state on any path; and provided the run reaches
the dry-run branch — in particular at least one requested table has a valid
completed export in the selected manifest — a requested table with no valid
export yields a `NO_EXPORT` validation entry and the status code is 200. -/
theorem C2_amended :
    (∀ (env : DREnv) (ev : Event), ev.dry_run = true → (lambda_handler env ev).writes = [])
    ∧ (∀ (env : DREnv) (ev : Event) (tables : List String) (date : String)
        (m : ManifestDoc) (t : String),
        ev.dry_run = true →
        (env.backup_bucket == "" || env.environment == "") = false →
        selectTables (tablesToRestore env.environment) ev.tables = some tables →
        resolveBackupDate env.s3 ev.backup_date = some date →
        get_backup_manifest env.s3 date = some m →
        (buildAvailable tables m.exports).isEmpty = false →
        t ∈ tables →
        lookupA (buildAvailable tables m.exports) t = none →
        (lambda_handler env ev).statusCode = 200
        ∧ ∃ vs, (lambda_handler env ev).validation = some vs
            ∧ (⟨t, "NO_EXPORT", 0, 0⟩ : VEntry) ∈ vs) := by
  constructor
  · intro env ev hdry
    unfold lambda_handler
    split
    · rfl
    · split
      · rfl
      · split
        · rfl
        · split
          · rfl
          · split
            all_goals rfl
  · intro env ev tables date m t hdry hbk hsel hdate hman hav hmem hlook
    unfold lambda_handler
    split
    · rename_i hb
      rw [hbk] at hb
      exact absurd hb (by simp)
    · split
      · rename_i hsel2
        rw [hsel] at hsel2
        exact Option.noConfusion hsel2
      · rename_i tables2 hsel2
        rw [hsel] at hsel2
        injection hsel2 with htab
        subst htab
        split
        · rename_i hdate2
          rw [hdate] at hdate2
          exact Option.noConfusion hdate2
        · rename_i date2 hdate2
          rw [hdate] at hdate2
          injection hdate2 with hd
          subst hd
          split
          · rename_i hman2
            rw [hman] at hman2
            exact Option.noConfusion hman2
          · rename_i m2 hman2
            rw [hman] at hman2
            injection hman2 with hm
            subst hm
            rw [if_neg (by simp [hav])]
            refine ⟨rfl, _, rfl, ?_⟩
            refine List.mem_map.mpr ⟨t, hmem, ?_⟩
            simp [hlook, dryRunEntry]

/-- Claim C2 (counterexample): a dry-run request for a single table that has no
completed export in the selected manifest does not produce a `NO_EXPORT`
validation entry with status 200 — the handler raises "No valid exports found
for any requested tables" and returns 500 with no validation results. -/
theorem C2_counterexample :
    (lambda_handler exEnvC2 exEventC2).statusCode = 500
    ∧ (lambda_handler exEnvC2 exEventC2).validation = none :=
  ⟨rfl, rfl⟩

/-- Claim C2 (witness): when another requested table has a valid export, the
dry run returns 200, makes no writes, and reports `NO_EXPORT` for the table
without one. -/
theorem C2_witness :
    (lambda_handler exEnvC2 exEventC2w).statusCode = 200
    ∧ ∃ vs, (lambda_handler exEnvC2 exEventC2w).validation = some vs
        ∧ (⟨"mfa-api_prod_u2f_global", "NO_EXPORT", 0, 0⟩ : VEntry) ∈ vs :=
  C2_amended.2 exEnvC2 exEventC2w
    ["mfa-api_prod_u2f_global", "mfa-api_prod_totp_global"] "2025-01-01" exManifestDoc
    "mfa-api_prod_u2f_global" rfl rfl (by decide) rfl rfl (by decide) (by decide) (by decide)

/-- Claim C10 (amended): every selected table is one of the three fixed
environment-derived names and requested tables outside that set are dropped
from the selection; the selection step itself aborts (and the handler then
returns 500) exactly when tables were requested and none is in the fixed set;
and every restore result produced by the handler is for a table in the fixed
set.  However, 500 can also arise from later failures (no backups, missing
manifest, no valid exports, or all restores failing), so "500 only when no
requested table remains" does not hold of the whole invocation. -/
theorem C10_amended :
    (∀ (environment : String) (specific ts : List String),
        selectTables (tablesToRestore environment) specific = some ts →
        (∀ t ∈ ts, t ∈ tablesToRestore environment)
        ∧ (∀ t ∈ specific, t ∉ tablesToRestore environment → t ∉ ts))
    ∧ (∀ (environment : String) (specific : List String),
        selectTables (tablesToRestore environment) specific = none
        ↔ specific ≠ [] ∧ ∀ t ∈ specific, t ∉ tablesToRestore environment)
    ∧ (∀ (env : DREnv) (ev : Event),
        selectTables (tablesToRestore env.environment) ev.tables = none →
        (lambda_handler env ev).statusCode = 500)
    ∧ (∀ (env : DREnv) (ev : Event) (rs : List RestoreResult),
        (lambda_handler env ev).restores = some rs →
        ∀ r ∈ rs, r.table_name ∈ tablesToRestore env.environment) := by
  refine ⟨?_, ?_, ?_, ?_⟩
  · intro environment specific ts h
    exact ⟨selectTables_sub _ _ _ h, selectTables_dropped _ _ _ h⟩
  · intro environment specific
    unfold selectTables
    by_cases hsp : specific.isEmpty = true
    · have h0 : specific = [] := by simpa using hsp
      subst h0
      simp
    · rw [if_neg hsp]
      have h0 : specific ≠ [] := by simpa using hsp
      by_cases hfil : (specific.filter
          (fun t => (tablesToRestore environment).contains t)).isEmpty = true
      · rw [if_pos hfil]
        have hnil : specific.filter (fun t => (tablesToRestore environment).contains t)
            = [] := by simpa using hfil
        constructor
        · intro _
          refine ⟨h0, ?_⟩
          intro t ht hmem
          have hc := List.filter_eq_nil_iff.mp hnil t ht
          simp at hc
          exact hc hmem
        · intro _
          rfl
      · rw [if_neg hfil]
        constructor
        · intro h
          exact absurd h (by simp)
        · rintro ⟨_, hall⟩
          exfalso
          apply hfil
          have hnil : specific.filter (fun t => (tablesToRestore environment).contains t)
              = [] := by
            apply List.filter_eq_nil_iff.mpr
            intro t ht
            simpa using hall t ht
          rw [hnil]
          rfl
  · intro env ev h
    unfold lambda_handler
    split
    · rfl
    · split
      · rfl
      · rename_i tables hsel2
        rw [h] at hsel2
        exact Option.noConfusion hsel2
  · intro env ev rs hres r hr
    unfold lambda_handler at hres
    split at hres
    · simp [err500] at hres
    · split at hres
      · simp [err500] at hres
      · split at hres
        · simp [err500] at hres
        · split at hres
          · simp [err500] at hres
          · split at hres
            · simp [err500] at hres
            · split at hres
              · simp at hres
              · rename_i x1 tables hsel x2 date hdate x3 m hman hav hdry
                have hrs : (runRestores env tables (buildAvailable tables m.exports) ev).1
                    = rs := by simpa using hres
                subst hrs
                unfold runRestores at hr
                simp only [List.map_map, List.mem_map] at hr
                obtain ⟨t, hmemt, hrt⟩ := hr
                have hname : r.table_name = t := by
                  rw [← hrt]
                  cases hl : lookupA (buildAvailable tables m.exports) t
                  · simp [Function.comp, hl]
                  · simp [Function.comp, hl, restore_table_name]
                rw [hname]
                exact selectTables_sub _ _ _ hsel t hmemt

/-- Claim C10 (counterexample): a requested table that is in the fixed set is
selected, yet the invocation still fails with 500 because the backup manifest
is missing — so "fails with 500 only when no requested table remains" is false
of the whole invocation. -/
theorem C10_counterexample :
    selectTables (tablesToRestore "prod") ["mfa-api_prod_u2f_global"]
      = some ["mfa-api_prod_u2f_global"]
    ∧ (lambda_handler exEnvC10 exEventC10).statusCode = 500 := by
  constructor
  · decide
  · rfl

/-- Claim C10 (witness): requesting only a name outside the fixed set makes
the selection abort and the handler return 500. -/
theorem C10_witness : (lambda_handler exEnvC10 exEventC10b).statusCode = 500 :=
  C10_amended.2.2.1 exEnvC10 exEventC10b (by decide)

end Recovery
